import Mathlib

/-!
# Verification of the WRO 2024 Future Engineers peripheral drivers

Shallow embedding of the DC-motor ramp controller (`dc_motor.cpp`, the
`Motor` class) and the ultrasonic distance sensor
(`ultrasonic_sensor.cpp`, the `UltrasonicSensor` class), together with
proofs of the specified properties.

Machine integers are modelled as `Int`/`Nat`.  The `int8_t` speed fields
only ever hold values in `[-100, 100]` in the regimes the properties
speak about, so no wrap-around occurs and plain `Int` is faithful.
Time (`millis()`) is passed to `update` as an explicit `Nat` parameter;
the function-local `static unsigned long last_ms` becomes an explicit
state field.
-/

namespace ZEN

/-- Arduino `map()`: `(x - in_min) * (out_max - out_min) / (in_max - in_min)
+ out_min`, with C `long` division (truncation toward zero, `Int.tdiv`). -/
def arduinoMap (x in_min in_max out_min out_max : Int) : Int :=
  ((x - in_min) * (out_max - out_min)).tdiv (in_max - in_min) + out_min

/-- Arduino `constrain(amt, low, high)`:
`(amt < low ? low : (amt > high ? high : amt))`. -/
def constrain (amt low high : Int) : Int :=
  if amt < low then low else if amt > high then high else amt

/-! ## Motor constants

`dc_motor.cpp` uses `MIN_SPEED`, `MAX_SPEED`, `MIN_ACCELERATION`,
`MAX_ACCELERATION`, `MIN_UPDATE_DELAY`, `MAX_UPDATE_DELAY` from its header
`dc_motor.h`, which is not among the provided sources.  Modelled from the
spec: speeds range over `[-100, 100]` and acceleration over `[0, 100]`;
the delay bounds are taken from the sibling driver header `L298N.h`
(`MIN_UPDATING_INTERVAL 50000`, `MAX_UPDATING_INTERVAL 100`), which the
spec's delay property cites: `MIN_UPDATE_DELAY` is the delay used at
minimum acceleration (the longest one) and `MAX_UPDATE_DELAY` the delay
used at maximum acceleration (the shortest one). -/

def MIN_SPEED : Int := -100
def MAX_SPEED : Int := 100
def MIN_ACCELERATION : Int := 0
def MAX_ACCELERATION : Int := 100
def MIN_UPDATE_DELAY : Int := 50000
def MAX_UPDATE_DELAY : Int := 100

/-- State of one `Motor` instance: the fields of the C++ object
(`current_speed_`, `setpoint_speed_`, `acceleration_`, `status_`,
`enabled_`, `update_delay_`), the function-local `static unsigned long
last_ms` of `Motor::update`, and the duty cycles last commanded to the
two PWM channels (the observable effect of `pulse_perc`). -/
structure MotorState where
  current_speed : Int
  setpoint_speed : Int
  acceleration : Int
  status : Bool
  enabled : Bool
  last_ms : Nat
  update_delay : Int
  forward_pwm : Int
  backward_pwm : Int
deriving DecidableEq, Repr

/-- The state after `Motor::init()` on a zero-initialized (static storage)
object: `acceleration_ = MAX_ACCELERATION`, both PWM channels begun at 0%
duty, `enabled_ = true`; all other fields keep their zero initialization. -/
def motorInit : MotorState :=
  { current_speed := 0
    setpoint_speed := 0
    acceleration := MAX_ACCELERATION
    status := false
    enabled := true
    last_ms := 0
    update_delay := 0
    forward_pwm := 0
    backward_pwm := 0 }

/-- The delay computed at the top of `Motor::update`:
`map(acceleration_, MIN_ACCELERATION, MAX_ACCELERATION, MIN_UPDATE_DELAY,
MAX_UPDATE_DELAY)`. -/
def motorUpdateDelay (a : Int) : Int :=
  arduinoMap a MIN_ACCELERATION MAX_ACCELERATION MIN_UPDATE_DELAY MAX_UPDATE_DELAY

/-- `Motor::update()`.  `t` is the value `millis()` returns during this
call.  The delay is recomputed and stored on every call; the ramp step and
the PWM writes happen only when `millis() - last_ms > update_delay_`. -/
def Motor.update (t : Nat) (s : MotorState) : MotorState :=
  let s1 := { s with update_delay := motorUpdateDelay s.acceleration }
  if ((t - s1.last_ms : Nat) : Int) > s1.update_delay then
    let s2 := { s1 with last_ms := t }
    let s3 :=
      if s2.setpoint_speed ≠ s2.current_speed then
        if s2.setpoint_speed > s2.current_speed then
          { s2 with status := true, current_speed := s2.current_speed + 1 }
        else if s2.setpoint_speed < s2.current_speed then
          { s2 with status := true, current_speed := s2.current_speed - 1 }
        else
          { s2 with status := true }
      else
        { s2 with status := false }
    if s3.current_speed < 0 then
      { s3 with forward_pwm := 0, backward_pwm := |s3.current_speed| }
    else
      { s3 with forward_pwm := s3.current_speed, backward_pwm := 0 }
  else s1

/-- `Motor::setSpeed(int8_t speed)`:
`setpoint_speed_ = constrain(speed, MIN_SPEED, MAX_SPEED)`. -/
def Motor.setSpeed (v : Int) (s : MotorState) : MotorState :=
  { s with setpoint_speed := constrain v MIN_SPEED MAX_SPEED }

/-- `Motor::setAcceleration(uint8_t acceleration)`:
`acceleration_ = constrain(acceleration, MIN_ACCELERATION, MAX_ACCELERATION)`. -/
def Motor.setAcceleration (a : Int) (s : MotorState) : MotorState :=
  { s with acceleration := constrain a MIN_ACCELERATION MAX_ACCELERATION }

/-- `Motor::stop()` (state effect): `acceleration_ = MAX_ACCELERATION;
current_speed_ = 0; setpoint_speed_ = 0; enabled_ = false`. -/
def Motor.stop (s : MotorState) : MotorState :=
  { s with
    acceleration := MAX_ACCELERATION
    current_speed := 0
    setpoint_speed := 0
    enabled := false }

/-- The value `Motor::stop()` returns: the new `enabled_`. -/
def Motor.stopReturn (s : MotorState) : Bool :=
  (Motor.stop s).enabled

/-- `Motor::isUpdating()`: `return status_;`. -/
def Motor.isUpdating (s : MotorState) : Bool :=
  s.status

/-- `Motor::getSpeed()`: `return current_speed_;`. -/
def Motor.getSpeed (s : MotorState) : Int :=
  s.current_speed

/-- The time gate of `Motor::update`: `millis() - last_ms > update_delay_`,
with the delay this call just computed from the acceleration. -/
def motorGate (t : Nat) (s : MotorState) : Prop :=
  ((t - s.last_ms : Nat) : Int) > motorUpdateDelay s.acceleration

instance (t : Nat) (s : MotorState) : Decidable (motorGate t s) := by
  unfold motorGate
  infer_instance

/-- One call on the motor API, for reasoning about call sequences. -/
inductive MotorOp where
  | setSpeed (v : Int)
  | setAcceleration (a : Int)
  | update (t : Nat)
  | stop
deriving DecidableEq, Repr

/-- Apply one call to a motor state. -/
def applyMotorOp (s : MotorState) : MotorOp → MotorState
  | .setSpeed v => Motor.setSpeed v s
  | .setAcceleration a => Motor.setAcceleration a s
  | .update t => Motor.update t s
  | .stop => Motor.stop s

/-- Run a sequence of calls from a state. -/
def runMotor (s : MotorState) : List MotorOp → MotorState
  | [] => s
  | op :: ops => runMotor (applyMotorOp s op) ops

/-! ## Ultrasonic sensor

`ultrasonic_sensor.cpp`.  The header `ultrasonic_sensor.h` (declaring the
`SonarMode` enum and the field types) is not among the provided sources.
Modelled from the spec: `mode ∈ {MANUAL, AUTOMATIC}`, `status : bool`,
`distance` the last computed reading.  `distance` is modelled as `Int` so
that raw conversions that land below 0 (the spec's `-10` example) are
representable; `getDistance` clamps it to `[0, 400]`.
`computeDistance` drives pins and converts a floating-point pulse
measurement; its observable state effect is modelled as storing the
measured value `m`, plus a ghost counter `cycles` recording how many
trigger/measure cycles have been performed. -/

/-- The sensor mode enum (modelled from the spec: MANUAL or AUTOMATIC). -/
inductive SonarMode where
  | MANUAL
  | AUTOMATIC
deriving DecidableEq, Repr

/-- State of one `UltrasonicSensor` instance: `mode_`, `status_`,
`distance_`, plus the ghost cycle counter. -/
structure SensorState where
  mode : SonarMode
  status : Bool
  distance : Int
  cycles : Nat
deriving DecidableEq, Repr

/-- The state after the constructor on a zero-initialized (static storage)
object: the given mode is stored, `status_` and `distance_` keep their
zero initialization. -/
def sensorConstruct (mode : SonarMode) : SensorState :=
  { mode := mode, status := false, distance := 0, cycles := 0 }

/-- `UltrasonicSensor::computeDistance()` (state effect): stores the
distance computed from the echo pulse.  `m` is the value the conversion
`pulse_time * kSpeedOfSound * 1e-4 / 2` produces on this cycle; the ghost
counter records that a cycle happened. -/
def computeDistance (m : Int) (s : SensorState) : SensorState :=
  { s with distance := m, cycles := s.cycles + 1 }

/-- `UltrasonicSensor::update()`: in AUTOMATIC mode always
`computeDistance()`; in MANUAL mode `computeDistance()` then
`status_ = false`, but only when `status_` is set. -/
def UltrasonicSensor.update (m : Int) (s : SensorState) : SensorState :=
  if s.mode = SonarMode.AUTOMATIC then
    computeDistance m s
  else
    if s.status then
      { computeDistance m s with status := false }
    else
      s

/-- `UltrasonicSensor::setMode(SonarMode mode)`: `mode_ = mode;`. -/
def UltrasonicSensor.setMode (mode : SonarMode) (s : SensorState) : SensorState :=
  { s with mode := mode }

/-- `UltrasonicSensor::startMeasurement()`:
`if (mode_ == SonarMode::MANUAL) status_ = true;`. -/
def UltrasonicSensor.startMeasurement (s : SensorState) : SensorState :=
  if s.mode = SonarMode.MANUAL then { s with status := true } else s

/-- `UltrasonicSensor::isUpdating()`: `return status_;`. -/
def UltrasonicSensor.isUpdating (s : SensorState) : Bool :=
  s.status

/-- `UltrasonicSensor::getDistance()`:
`distance_ = constrain(distance_, 0, 400); return distance_;` —
returns the clamped value and stores it back. -/
def UltrasonicSensor.getDistance (s : SensorState) : Int × SensorState :=
  let d := constrain s.distance 0 400
  (d, { s with distance := d })

/-- One call on the sensor API, for reasoning about call sequences. -/
inductive SensorOp where
  | update (m : Int)
  | setMode (mode : SonarMode)
  | startMeasurement
  | getDistance
deriving DecidableEq, Repr

/-- Apply one call to a sensor state. -/
def applySensorOp (s : SensorState) : SensorOp → SensorState
  | .update m => UltrasonicSensor.update m s
  | .setMode mode => UltrasonicSensor.setMode mode s
  | .startMeasurement => UltrasonicSensor.startMeasurement s
  | .getDistance => (UltrasonicSensor.getDistance s).2

/-- Run a sequence of calls from a sensor state. -/
def runSensor (s : SensorState) : List SensorOp → SensorState
  | [] => s
  | op :: ops => runSensor (applySensorOp s op) ops

/-! ## Helper lemmas -/

lemma constrain_lower {x a b : Int} (hab : a ≤ b) : a ≤ constrain x a b := by
  unfold constrain
  split_ifs <;> omega

lemma constrain_upper {x a b : Int} (hab : a ≤ b) : constrain x a b ≤ b := by
  unfold constrain
  split_ifs <;> omega

/-- Closed form of the delay map: the Arduino `map` divides exactly here,
so `update_delay = 50000 - 499 * acceleration`. -/
lemma motorUpdateDelay_eq (a : Int) : motorUpdateDelay a = 50000 - 499 * a := by
  unfold motorUpdateDelay arduinoMap MIN_ACCELERATION MAX_ACCELERATION
    MIN_UPDATE_DELAY MAX_UPDATE_DELAY
  have h : (a - 0) * (100 - 50000) = a * -499 * 100 := by ring
  have h2 : (100 : Int) - 0 = 100 := by norm_num
  rw [h, h2, Int.mul_tdiv_cancel _ (by norm_num)]
  ring

/-- Complete characterization of the speed field after `Motor::update`. -/
lemma motor_update_current (t : Nat) (s : MotorState) :
    (Motor.update t s).current_speed =
      if motorGate t s then
        if s.setpoint_speed > s.current_speed then s.current_speed + 1
        else if s.setpoint_speed < s.current_speed then s.current_speed - 1
        else s.current_speed
      else s.current_speed := by
  simp only [Motor.update, motorGate]
  split_ifs <;> simp_all

/-- `Motor::update` never changes the setpoint. -/
lemma motor_update_setpoint (t : Nat) (s : MotorState) :
    (Motor.update t s).setpoint_speed = s.setpoint_speed := by
  simp only [Motor.update]
  split_ifs <;> simp

/-- Complete characterization of the status flag after `Motor::update`. -/
lemma motor_update_status (t : Nat) (s : MotorState) :
    (Motor.update t s).status =
      if motorGate t s then decide (s.setpoint_speed ≠ s.current_speed)
      else s.status := by
  simp only [Motor.update, motorGate]
  split_ifs <;> simp_all

/-- `Motor::update` never changes the acceleration. -/
lemma motor_update_acceleration (t : Nat) (s : MotorState) :
    (Motor.update t s).acceleration = s.acceleration := by
  simp only [Motor.update]
  split_ifs <;> simp

/-- When the time gate fails, `Motor::update` only stores the recomputed
delay; every other field (speeds, status, PWM duty cycles) is untouched. -/
lemma motor_update_gate_fail (t : Nat) (s : MotorState) (h : ¬ motorGate t s) :
    Motor.update t s = { s with update_delay := motorUpdateDelay s.acceleration } := by
  simp only [motorGate] at h
  simp only [Motor.update]
  split_ifs
  simp_all

/-- `Motor::update` neither reads nor writes `enabled_`: flipping the flag
before the call flips it after and changes nothing else. -/
lemma motor_update_enabled_comm (t : Nat) (s : MotorState) (b : Bool) :
    Motor.update t { s with enabled := b } =
      { Motor.update t s with enabled := b } := by
  simp only [Motor.update]
  split_ifs <;> rfl

/-- `Motor::setSpeed` neither reads nor writes `enabled_`. -/
lemma motor_setSpeed_enabled_comm (v : Int) (s : MotorState) (b : Bool) :
    Motor.setSpeed v { s with enabled := b } =
      { Motor.setSpeed v s with enabled := b } := by
  rfl

/-- Both speeds within `[-100, 100]` — the regime every reachable motor
state lives in (`begin` zero-initializes them, `setSpeed` clamps). -/
def SpeedInv (s : MotorState) : Prop :=
  -100 ≤ s.current_speed ∧ s.current_speed ≤ 100 ∧
  -100 ≤ s.setpoint_speed ∧ s.setpoint_speed ≤ 100

lemma speedInv_applyMotorOp {s : MotorState} (h : SpeedInv s) (op : MotorOp) :
    SpeedInv (applyMotorOp s op) := by
  obtain ⟨h1, h2, h3, h4⟩ := h
  cases op with
  | setSpeed v =>
      have hl := @constrain_lower v MIN_SPEED MAX_SPEED (by norm_num [MIN_SPEED, MAX_SPEED])
      have hu := @constrain_upper v MIN_SPEED MAX_SPEED (by norm_num [MIN_SPEED, MAX_SPEED])
      simp only [MIN_SPEED, MAX_SPEED] at hl hu
      exact ⟨h1, h2, hl, hu⟩
  | setAcceleration a =>
      exact ⟨h1, h2, h3, h4⟩
  | update t =>
      have hc := motor_update_current t s
      have hs := motor_update_setpoint t s
      have hb : -100 ≤ (Motor.update t s).current_speed ∧
          (Motor.update t s).current_speed ≤ 100 := by
        rw [hc]
        split_ifs <;> omega
      simp only [applyMotorOp]
      exact ⟨hb.1, hb.2, by rw [hs]; exact h3, by rw [hs]; exact h4⟩
  | stop =>
      refine ⟨?_, ?_, ?_, ?_⟩ <;> simp [applyMotorOp, Motor.stop]

lemma speedInv_runMotor :
    ∀ (ops : List MotorOp) (s : MotorState), SpeedInv s → SpeedInv (runMotor s ops) := by
  intro ops
  induction ops with
  | nil => intro s h; exact h
  | cons op ops ih => intro s h; exact ih _ (speedInv_applyMotorOp h op)

/-! ## Claims about the motor ramp controller -/

/-- **C1.** Along every sequence of `setSpeed`/`setAcceleration`/`update`
calls from a state whose speeds satisfy the data-model bounds (every
reachable state does: they are zero-initialized and `setSpeed` clamps),
`current_speed` stays in `[-100, 100]`; one `update` call changes
`current_speed` by exactly one step toward the setpoint when the
configured interval has elapsed and not at all otherwise, so it changes by
at most 1, never moves past the setpoint, and the distance
`|setpoint_speed - current_speed|` never increases across an `update`. -/
theorem C1_ramp_invariants (s : MotorState) (ops : List MotorOp) (t : Nat)
    (h1 : -100 ≤ s.current_speed) (h2 : s.current_speed ≤ 100)
    (h3 : -100 ≤ s.setpoint_speed) (h4 : s.setpoint_speed ≤ 100) :
    (-100 ≤ (runMotor s ops).current_speed ∧ (runMotor s ops).current_speed ≤ 100) ∧
    ((Motor.update t s).current_speed =
      if motorGate t s then
        if s.setpoint_speed > s.current_speed then s.current_speed + 1
        else if s.setpoint_speed < s.current_speed then s.current_speed - 1
        else s.current_speed
      else s.current_speed) ∧
    (Motor.update t s).setpoint_speed = s.setpoint_speed ∧
    (s.current_speed - 1 ≤ (Motor.update t s).current_speed ∧
      (Motor.update t s).current_speed ≤ s.current_speed + 1) ∧
    (s.setpoint_speed - (Motor.update t s).current_speed).natAbs ≤
      (s.setpoint_speed - s.current_speed).natAbs := by
  refine ⟨?_, motor_update_current t s, motor_update_setpoint t s, ?_, ?_⟩
  · have h := speedInv_runMotor ops s ⟨h1, h2, h3, h4⟩
    exact ⟨h.1, h.2.1⟩
  · rw [motor_update_current t s]
    split_ifs <;> omega
  · rw [motor_update_current t s]
    split_ifs <;> omega

/-- Witness for C1: a concrete run from the initialized motor. -/
theorem C1_ramp_invariants_witness :
    -100 ≤ (runMotor motorInit [MotorOp.setSpeed 50, MotorOp.update 101]).current_speed ∧
    (runMotor motorInit [MotorOp.setSpeed 50, MotorOp.update 101]).current_speed ≤ 100 :=
  (C1_ramp_invariants motorInit [MotorOp.setSpeed 50, MotorOp.update 101] 101
    (by decide) (by decide) (by decide) (by decide)).1

/-- **C2 counterexample.** `stop()` does not clear `status_`: from the
initialized motor, `setSpeed(50)` followed by one qualifying `update()`
tick sets `status_`; calling `stop()` then leaves it set, so a subsequent
`isUpdating()` returns `true`, not `false` as the claim states. -/
theorem C2_stop_counterexample :
    Motor.isUpdating (Motor.stop (Motor.update 101 (Motor.setSpeed 50 motorInit))) = true := by
  decide

/-- **C2 (amended).** After `stop()`: `current_speed == 0`,
`setpoint_speed == 0`, acceleration equals its maximum, the driver is
disabled and the returned value is `false`; but `isUpdating()` afterwards
returns the `status_` flag unchanged from before the call — `stop()` does
not clear it, so it reads `false` only if it already was `false`. -/
theorem C2_stop_amended (s : MotorState) :
    (Motor.stop s).current_speed = 0 ∧
    (Motor.stop s).setpoint_speed = 0 ∧
    (Motor.stop s).acceleration = MAX_ACCELERATION ∧
    (Motor.stop s).enabled = false ∧
    Motor.stopReturn s = false ∧
    Motor.isUpdating (Motor.stop s) = s.status :=
  ⟨rfl, rfl, rfl, rfl, rfl, rfl⟩

/-- **C3 counterexample.** Immediately after `setSpeed(50)` on the
initialized motor the speeds differ, yet `isUpdating()` still returns
`false`: the flag is not recomputed from the two speeds on every
operation, refuting `is_updating == (current_speed != setpoint_speed)`. -/
theorem C3_isUpdating_counterexample :
    Motor.isUpdating (Motor.setSpeed 50 motorInit) = false ∧
    (Motor.setSpeed 50 motorInit).current_speed ≠
      (Motor.setSpeed 50 motorInit).setpoint_speed := by
  decide

/-- **C3 (amended).** `isUpdating()` returns a stored flag that only a
qualifying `update()` tick writes: such a tick sets it to whether the two
speeds differed at the start of that tick (i.e. whether a ramp step was
taken); `setSpeed`, `setAcceleration` and `stop` leave it unchanged, so
immediately after `setSpeed()` or `stop()` it can disagree with
`current_speed != setpoint_speed`. -/
theorem C3_isUpdating_amended (s : MotorState) (v a : Int) (t : Nat) :
    Motor.isUpdating s = s.status ∧
    (Motor.setSpeed v s).status = s.status ∧
    (Motor.setAcceleration a s).status = s.status ∧
    (Motor.stop s).status = s.status ∧
    (Motor.update t s).status =
      (if motorGate t s then decide (s.setpoint_speed ≠ s.current_speed)
       else s.status) :=
  ⟨rfl, rfl, rfl, rfl, motor_update_status t s⟩

/-- **C6.** The update delay `map(acceleration, 0, 100, MIN_UPDATE_DELAY,
MAX_UPDATE_DELAY)` is a monotonically decreasing function of acceleration
on `[0, 100]`: acceleration 100 yields the minimum of the two configured
delays, acceleration 0 the maximum, and a higher acceleration never yields
a longer delay. -/
theorem C6_delay_monotone (a b : Int) :
    motorUpdateDelay MAX_ACCELERATION = min MIN_UPDATE_DELAY MAX_UPDATE_DELAY ∧
    motorUpdateDelay MIN_ACCELERATION = max MIN_UPDATE_DELAY MAX_UPDATE_DELAY ∧
    (MIN_ACCELERATION ≤ a → a ≤ b → b ≤ MAX_ACCELERATION →
      motorUpdateDelay b ≤ motorUpdateDelay a) := by
  refine ⟨?_, ?_, ?_⟩
  · rw [motorUpdateDelay_eq]
    norm_num [MAX_ACCELERATION, MIN_UPDATE_DELAY, MAX_UPDATE_DELAY]
  · rw [motorUpdateDelay_eq]
    norm_num [MIN_ACCELERATION, MIN_UPDATE_DELAY, MAX_UPDATE_DELAY]
  · intro ha hab hb
    rw [motorUpdateDelay_eq, motorUpdateDelay_eq]
    omega

/-- Witness for C6 at concrete accelerations. -/
theorem C6_delay_monotone_witness :
    motorUpdateDelay MAX_ACCELERATION = min MIN_UPDATE_DELAY MAX_UPDATE_DELAY ∧
    motorUpdateDelay 7 ≤ motorUpdateDelay 3 :=
  ⟨(C6_delay_monotone 3 7).1,
    (C6_delay_monotone 3 7).2.2 (by decide) (by decide) (by decide)⟩

/-- The C7 scenario start: the initialized motor (speed 0) after
`setAcceleration(100)` and `setSpeed(50)`. -/
def c7Start : MotorState :=
  Motor.setSpeed 50 (Motor.setAcceleration 100 motorInit)

/-- The C7 scenario run: `update()` is called at times 101, 202, …
(acceleration 100 gives `update_delay = 100`, so every call's time gate
qualifies). -/
def c7Run : Nat → MotorState
  | 0 => c7Start
  | n + 1 => Motor.update ((n + 1) * 101) (c7Run n)

set_option maxRecDepth 100000 in
/-- From the 51st tick on, the run sits at the fixed point: speed 50,
flag cleared, only `last_ms` advancing. -/
lemma c7Run_stable (k : Nat) :
    c7Run (51 + k) =
      { current_speed := 50, setpoint_speed := 50, acceleration := 100,
        status := false, enabled := true, last_ms := (51 + k) * 101,
        update_delay := 100, forward_pwm := 50, backward_pwm := 0 } := by
  induction k with
  | zero => decide
  | succ k ih =>
      show Motor.update ((51 + k + 1) * 101) (c7Run (51 + k)) = _
      rw [ih]
      have hsub : (51 + k + 1) * 101 - (51 + k) * 101 = 101 := by omega
      simp only [Motor.update, motorUpdateDelay_eq]
      norm_num [hsub]
      omega

set_option maxRecDepth 100000 in
/-- **C7.** From speed 0 with acceleration 100, after `setSpeed(50)` and
`update()` calls whose time gates all qualify: `current_speed` is exactly
`k` after `k ≤ 50` qualifying ticks (so it reaches 50 at tick 50 and not
before), `isUpdating()` is `true` from tick 1 through tick 50 inclusive,
and `false` on every tick after tick 50; every call's gate qualifies. -/
theorem C7_ramp_scenario (k : Nat) :
    (k ≤ 50 → (c7Run k).current_speed = (k : Int)) ∧
    (1 ≤ k → k ≤ 50 → Motor.isUpdating (c7Run k) = true) ∧
    (50 < k → Motor.isUpdating (c7Run k) = false) ∧
    motorGate ((k + 1) * 101) (c7Run k) := by
  by_cases hk : k ≤ 50
  · interval_cases k <;> exact (by decide)
  · push_neg at hk
    obtain ⟨j, rfl⟩ : ∃ j, k = 51 + j := ⟨k - 51, by omega⟩
    have hs := c7Run_stable j
    refine ⟨fun h => absurd h (by omega), fun _ h => absurd h (by omega),
      fun _ => ?_, ?_⟩
    · show (c7Run (51 + j)).status = false
      rw [hs]
    · unfold motorGate
      rw [hs, motorUpdateDelay_eq]
      have hsub : (51 + j + 1) * 101 - (51 + j) * 101 = 101 := by omega
      norm_num [hsub]

/-- Witness for C7 at the 50th and 51st ticks. -/
theorem C7_ramp_scenario_witness :
    (c7Run 50).current_speed = (50 : Int) ∧
    Motor.isUpdating (c7Run 50) = true ∧
    Motor.isUpdating (c7Run 51) = false :=
  ⟨(C7_ramp_scenario 50).1 (by decide),
    (C7_ramp_scenario 50).2.1 (by decide) (by decide),
    (C7_ramp_scenario 51).2.2.1 (by decide)⟩

/-- **C9.** `stop()` only mutates controller fields: both PWM duty cycles
keep their last commanded values (and a non-qualifying `update()` tick
keeps them too); `update()` and `setSpeed()` neither read nor write
`enabled_` — flipping the flag commutes with both calls — so after
`stop()` the controller accepts setpoints and ramps exactly as when
enabled. -/
theorem C9_stop_frame (s : MotorState) (v : Int) (t : Nat) (b : Bool) :
    (Motor.stop s).forward_pwm = s.forward_pwm ∧
    (Motor.stop s).backward_pwm = s.backward_pwm ∧
    Motor.setSpeed v { s with enabled := b } = { Motor.setSpeed v s with enabled := b } ∧
    Motor.update t { s with enabled := b } = { Motor.update t s with enabled := b } ∧
    (Motor.update t s).enabled = s.enabled ∧
    (Motor.setSpeed v s).enabled = s.enabled ∧
    (¬ motorGate t s →
      (Motor.update t s).forward_pwm = s.forward_pwm ∧
      (Motor.update t s).backward_pwm = s.backward_pwm) := by
  refine ⟨rfl, rfl, motor_setSpeed_enabled_comm v s b,
    motor_update_enabled_comm t s b, ?_, rfl, ?_⟩
  · simp only [Motor.update]
    split_ifs <;> rfl
  · intro h
    rw [motor_update_gate_fail t s h]
    exact ⟨rfl, rfl⟩

/-- Witness for C9: a non-qualifying tick right after initialization. -/
theorem C9_stop_frame_witness :
    (Motor.update 0 motorInit).forward_pwm = motorInit.forward_pwm ∧
    (Motor.update 0 motorInit).backward_pwm = motorInit.backward_pwm :=
  (C9_stop_frame motorInit 5 0 false).2.2.2.2.2.2 (by decide)

/-! ## Claims about the ultrasonic sensor -/

/-- **C4.** `getDistance()` always returns a value in `[0, 400]`: a stored
raw distance of 500 is reported as 400 and one of -10 as 0. -/
theorem C4_distance_clamped (s : SensorState) :
    0 ≤ (UltrasonicSensor.getDistance s).1 ∧
    (UltrasonicSensor.getDistance s).1 ≤ 400 ∧
    (s.distance = 500 → (UltrasonicSensor.getDistance s).1 = 400) ∧
    (s.distance = -10 → (UltrasonicSensor.getDistance s).1 = 0) := by
  refine ⟨@constrain_lower s.distance 0 400 (by norm_num),
    @constrain_upper s.distance 0 400 (by norm_num), ?_, ?_⟩
  · intro h
    simp [UltrasonicSensor.getDistance, h, constrain]
  · intro h
    simp [UltrasonicSensor.getDistance, h, constrain]

/-- Witness for C4 at raw distances 500 and -10. -/
theorem C4_distance_clamped_witness :
    (UltrasonicSensor.getDistance
      { mode := SonarMode.MANUAL, status := false, distance := 500, cycles := 0 }).1 = 400 ∧
    (UltrasonicSensor.getDistance
      { mode := SonarMode.MANUAL, status := false, distance := -10, cycles := 0 }).1 = 0 :=
  ⟨(C4_distance_clamped
      { mode := SonarMode.MANUAL, status := false, distance := 500, cycles := 0 }).2.2.1 rfl,
    (C4_distance_clamped
      { mode := SonarMode.MANUAL, status := false, distance := -10, cycles := 0 }).2.2.2 rfl⟩

/-- Starting in AUTOMATIC mode with the flag clear, no operation short of
switching to MANUAL mode can set `status_`. -/
lemma sensor_auto_preserved :
    ∀ (ops : List SensorOp) (s : SensorState), s.mode = SonarMode.AUTOMATIC →
      s.status = false → (∀ op ∈ ops, op ≠ SensorOp.setMode SonarMode.MANUAL) →
      (runSensor s ops).mode = SonarMode.AUTOMATIC ∧ (runSensor s ops).status = false := by
  intro ops
  induction ops with
  | nil =>
      intro s hm hs _
      exact ⟨hm, hs⟩
  | cons op ops ih =>
      intro s hm hs hops
      have hop := hops op (List.mem_cons_self op ops)
      have hops2 : ∀ o ∈ ops, o ≠ SensorOp.setMode SonarMode.MANUAL :=
        fun o ho => hops o (List.mem_cons_of_mem op ho)
      have hstep : (applySensorOp s op).mode = SonarMode.AUTOMATIC ∧
          (applySensorOp s op).status = false := by
        cases op with
        | update m =>
            simp [applySensorOp, UltrasonicSensor.update, hm, computeDistance, hs]
        | setMode mode =>
            cases mode with
            | MANUAL => exact absurd rfl hop
            | AUTOMATIC => simp [applySensorOp, UltrasonicSensor.setMode, hs]
        | startMeasurement =>
            simp [applySensorOp, UltrasonicSensor.startMeasurement, hm, hs]
        | getDistance =>
            simp [applySensorOp, UltrasonicSensor.getDistance, hm, hs]
      exact ih _ hstep.1 hstep.2 hops2

/-- **C5 counterexample.** `startMeasurement()` in MANUAL mode followed by
`setMode(AUTOMATIC)` — the prelude the claim itself allows — leaves the
sensor in AUTOMATIC mode with `status_ == true`, and an `update()` call in
AUTOMATIC mode does not clear it: `status_` does not remain `false`. -/
theorem C5_auto_counterexample :
    (UltrasonicSensor.setMode SonarMode.AUTOMATIC
        (UltrasonicSensor.startMeasurement (sensorConstruct SonarMode.MANUAL))).mode
      = SonarMode.AUTOMATIC ∧
    (UltrasonicSensor.setMode SonarMode.AUTOMATIC
        (UltrasonicSensor.startMeasurement (sensorConstruct SonarMode.MANUAL))).status
      = true ∧
    (UltrasonicSensor.update 7 (UltrasonicSensor.setMode SonarMode.AUTOMATIC
        (UltrasonicSensor.startMeasurement (sensorConstruct SonarMode.MANUAL)))).status
      = true := by
  decide

/-- **C5 (amended).** In AUTOMATIC mode every `update()` call performs
exactly one trigger/measure cycle and neither reads nor writes `status_`,
so the flag never gates measurement; it remains `false` along any sequence
that starts with it `false` and never sets MANUAL mode, but a MANUAL-mode
`startMeasurement()` before switching to AUTOMATIC leaves it latched
`true` (unused, though still reported by `isUpdating()`). -/
theorem C5_auto_amended (s : SensorState) (m : Int) (ops : List SensorOp) :
    (s.mode = SonarMode.AUTOMATIC →
      (UltrasonicSensor.update m s).distance = m ∧
      (UltrasonicSensor.update m s).cycles = s.cycles + 1 ∧
      (UltrasonicSensor.update m s).status = s.status) ∧
    (s.mode = SonarMode.AUTOMATIC → s.status = false →
      (∀ op ∈ ops, op ≠ SensorOp.setMode SonarMode.MANUAL) →
      (runSensor s ops).status = false) := by
  constructor
  · intro hm
    simp [UltrasonicSensor.update, hm, computeDistance]
  · intro hm hs hops
    exact (sensor_auto_preserved ops s hm hs hops).2

/-- Witness for C5 (amended) on a concrete AUTOMATIC-mode run. -/
theorem C5_auto_amended_witness :
    (UltrasonicSensor.update 7 (sensorConstruct SonarMode.AUTOMATIC)).distance = 7 ∧
    (runSensor (sensorConstruct SonarMode.AUTOMATIC)
        [SensorOp.update 7, SensorOp.startMeasurement]).status = false :=
  ⟨((C5_auto_amended (sensorConstruct SonarMode.AUTOMATIC) 7 []).1 rfl).1,
    (C5_auto_amended (sensorConstruct SonarMode.AUTOMATIC) 7
        [SensorOp.update 7, SensorOp.startMeasurement]).2 rfl rfl (by decide)⟩

/-- **C8.** In MANUAL mode, `update()` performs a trigger/measure cycle if
and only if `status_` is set, clearing it afterwards; with the flag clear
it leaves the whole state (in particular `distance_`) unchanged and
`isUpdating()` returns `false`. -/
theorem C8_manual_update (s : SensorState) (m : Int)
    (hm : s.mode = SonarMode.MANUAL) :
    (s.status = true →
      UltrasonicSensor.update m s =
        { s with distance := m, cycles := s.cycles + 1, status := false }) ∧
    (s.status = false →
      UltrasonicSensor.update m s = s ∧
      UltrasonicSensor.isUpdating (UltrasonicSensor.update m s) = false) := by
  constructor
  · intro hs
    simp [UltrasonicSensor.update, hm, hs, computeDistance]
  · intro hs
    have h : UltrasonicSensor.update m s = s := by
      simp [UltrasonicSensor.update, hm, hs]
    refine ⟨h, ?_⟩
    show (UltrasonicSensor.update m s).status = false
    rw [h]
    exact hs

/-- Witness for C8: a MANUAL-mode update with the flag set. -/
theorem C8_manual_update_witness :
    UltrasonicSensor.update 42
        (UltrasonicSensor.startMeasurement (sensorConstruct SonarMode.MANUAL)) =
      { mode := SonarMode.MANUAL, status := false, distance := 42, cycles := 1 } :=
  (C8_manual_update
    (UltrasonicSensor.startMeasurement (sensorConstruct SonarMode.MANUAL)) 42 rfl).1 rfl

/-- **C10.** `startMeasurement()` in AUTOMATIC mode is a silent no-op: the
whole sensor state is returned unchanged; only in MANUAL mode does it set
`status_` (and nothing else). -/
theorem C10_startMeasurement_noop (s : SensorState) :
    (s.mode = SonarMode.AUTOMATIC → UltrasonicSensor.startMeasurement s = s) ∧
    (s.mode = SonarMode.MANUAL →
      UltrasonicSensor.startMeasurement s = { s with status := true }) := by
  constructor
  · intro hm
    simp [UltrasonicSensor.startMeasurement, hm]
  · intro hm
    simp [UltrasonicSensor.startMeasurement, hm]

/-- Witness for C10 in both modes. -/
theorem C10_startMeasurement_noop_witness :
    UltrasonicSensor.startMeasurement (sensorConstruct SonarMode.AUTOMATIC) =
      sensorConstruct SonarMode.AUTOMATIC ∧
    UltrasonicSensor.startMeasurement (sensorConstruct SonarMode.MANUAL) =
      { mode := SonarMode.MANUAL, status := true, distance := 0, cycles := 0 } :=
  ⟨(C10_startMeasurement_noop (sensorConstruct SonarMode.AUTOMATIC)).1 rfl,
    (C10_startMeasurement_noop (sensorConstruct SonarMode.MANUAL)).2 rfl⟩

end ZEN
